import Mathlib

/-!
Verification of the Cherry OpenFlow controller core against its design
specification.  The definitions below are a shallow embedding of
`cherryd/internal/session/of13_controller.go` and
`cherryd/northbound/app/proxyarp/arp.go`.

Modelling conventions:
* The transport writer (`trans.Writer.Write`) can fail on any call; we model
  it as an oracle `w : Nat → Option String` giving, for the k-th write issued
  by the function under study, either `none` (success) or `some e` (the
  underlying error text `e`).
* Machine integers (`uint8`, `uint32`, `uint64`) are modelled as `Nat`; the
  only constant whose width matters is the table-miss cookie `0x1 <<< 63`,
  which fits in a `uint64` without wrap, so no modular reduction arises.
* Go strings are modelled as `List Char`; `strings.HasPrefix` is
  `List.isPrefixOf` and `strings.Contains` is decidability of `List.IsInfix`,
  which agree with Go's byte-slice semantics on the ASCII literals involved.
-/

namespace Cherry

/-! ## OpenFlow 1.3 handshake: `OF13Controller.OnHello`

`OnHello` issues nine sends in a straight line, wrapping any error with a
step-identifying text and aborting.  Each `sendXxx` helper builds one message
of a fixed kind and writes it, so we record the trace of message kinds handed
to the writer, in order. -/

/-- The kinds of protocol messages written by the handshake. -/
inductive OFMsg where
  | hello
  | setConfig
  | featuresRequest
  | barrierRequest
  | removeAllFlows
  | descriptionRequest
  | portDescriptionRequest
  deriving DecidableEq

/-- Embedding of `OF13Controller.OnHello` (of13_controller.go:35-67).
Returns the trace of messages handed to the writer (a send that fails is
still counted as issued, since the writer was invoked) together with the
error result: `none` for the Go `return nil`, `some s` for a wrapped error
with text `s`. -/
def onHello (w : Nat → Option String) : List OFMsg × Option String :=
  match w 0 with
  | some e => ([.hello], some ("failed to send HELLO: " ++ e))
  | none =>
  match w 1 with
  | some e => ([.hello, .setConfig], some ("failed to send SET_CONFIG: " ++ e))
  | none =>
  match w 2 with
  | some e => ([.hello, .setConfig, .featuresRequest],
      some ("failed to send FEATURE_REQUEST: " ++ e))
  | none =>
  match w 3 with
  | some e => ([.hello, .setConfig, .featuresRequest, .barrierRequest],
      some ("failed to send BARRIER_REQUEST: " ++ e))
  | none =>
  match w 4 with
  | some e => ([.hello, .setConfig, .featuresRequest, .barrierRequest,
      .removeAllFlows],
      some ("failed to send FLOW_MOD to remove all flows: " ++ e))
  | none =>
  match w 5 with
  | some e => ([.hello, .setConfig, .featuresRequest, .barrierRequest,
      .removeAllFlows, .barrierRequest],
      some ("failed to send BARRIER_REQUEST: " ++ e))
  | none =>
  match w 6 with
  | some e => ([.hello, .setConfig, .featuresRequest, .barrierRequest,
      .removeAllFlows, .barrierRequest, .descriptionRequest],
      some ("failed to send DESCRIPTION_REQUEST: " ++ e))
  | none =>
  match w 7 with
  | some e => ([.hello, .setConfig, .featuresRequest, .barrierRequest,
      .removeAllFlows, .barrierRequest, .descriptionRequest, .barrierRequest],
      some ("failed to send BARRIER_REQUEST: " ++ e))
  | none =>
  match w 8 with
  | some e => ([.hello, .setConfig, .featuresRequest, .barrierRequest,
      .removeAllFlows, .barrierRequest, .descriptionRequest, .barrierRequest,
      .portDescriptionRequest],
      some ("failed to send DESCRIPTION_REQUEST: " ++ e))
  | none =>
    ([.hello, .setConfig, .featuresRequest, .barrierRequest,
      .removeAllFlows, .barrierRequest, .descriptionRequest, .barrierRequest,
      .portDescriptionRequest], none)

/-- The nine-step handshake sequence of spec §4.1. -/
def handshakeSequence : List OFMsg :=
  [.hello, .setConfig, .featuresRequest, .barrierRequest, .removeAllFlows,
   .barrierRequest, .descriptionRequest, .barrierRequest,
   .portDescriptionRequest]

/-! ## Description replies, profile selection and table-miss installation -/

/-- The descriptor fields `OnDescReply` consults: the manufacturer and
hardware free-text strings of a DESCRIPTION_REPLY. -/
structure DescReply where
  manufacturer : List Char
  hardware : List Char
  deriving DecidableEq

/-- Embedding of Go `strings.HasPrefix s p`. -/
def goHasPrefix (s p : List Char) : Bool := p.isPrefixOf s

/-- Embedding of Go `strings.Contains s sub`. -/
def goContains (s sub : List Char) : Bool := decide (List.IsInfix sub s)

/-- Embedding of `isHP2920_24G` (of13_controller.go:81-83). -/
def isHP2920_24G (msg : DescReply) : Bool :=
  goHasPrefix msg.manufacturer "HP".toList &&
  goHasPrefix msg.hardware "2920-24G".toList

/-- Embedding of `isAS460054_T` (of13_controller.go:85-87). -/
def isAS460054_T (msg : DescReply) : Bool :=
  goContains msg.hardware "AS4600-54T".toList

/-- An output-port action target.  Modelled from the spec: the openflow
package (not under src/) constructs `NewOutPort()` as a flood target;
`SetController` retargets it to the controller and `SetValue n` to the
physical port `n`. -/
inductive OutPort where
  | flood
  | controller
  | physical (n : Nat)
  deriving DecidableEq

/-- Modelled from the spec: the openflow action object (not under src/);
the only field this code sets is its output port. -/
structure OFAction where
  outPort : OutPort
  deriving DecidableEq

/-- Modelled from the spec: the openflow instruction object (not under
src/).  Its setters select the instruction content: `GotoTable` makes it an
unconditional jump, `ApplyAction` an apply-actions instruction (spec §4.1:
the table-0/100 entries unconditionally jump; table 200's entry applies the
send-to-controller action). -/
inductive Instruction where
  | gotoTable (tableID : Nat)
  | applyAction (a : OFAction)
  deriving DecidableEq

/-- Modelled from the spec: `f.NewMatch()` constructs a wildcard match
matching all traffic (comment at of13_controller.go:90; spec §4.1). -/
inductive OFMatch where
  | wildcard
  deriving DecidableEq

/-- The fields of a flow-modification message that `setTableMiss`
populates before writing it. -/
structure FlowMod where
  cookie : Nat
  tableID : Nat
  idleTimeout : Nat
  hardTimeout : Nat
  priority : Nat
  flowMatch : OFMatch
  flowInstruction : Instruction
  deriving DecidableEq

/-- One physical interface as reported by the switch; the accessors this
controller uses are the port number and the two down-flags. -/
structure Port where
  number : Nat
  portDown : Bool
  linkDown : Bool
  deriving DecidableEq

/-- The Device state this controller mutates: the default flow-table
identifier (`SetFlowTableID`) and the port set keyed by port number
(`AddPort` / `UpdatePort`; port-set representation modelled from the spec,
the network package is not under src/). -/
structure Device where
  flowTableID : Nat
  ports : List (Nat × Port)
  deriving DecidableEq

/-- Embedding of `OF13Controller.setTableMiss` (of13_controller.go:89-111):
the flow-mod message it constructs and hands to the writer.  The cookie is
`0x1 << 63` (MSB marks a table-miss flow), both timeouts are zero
(permanent entry), the priority is zero and the match is the wildcard. -/
def setTableMissMsg (tableID : Nat) (inst : Instruction) : FlowMod :=
  { cookie := 1 <<< 63
    tableID := tableID
    idleTimeout := 0
    hardTimeout := 0
    priority := 0
    flowMatch := OFMatch.wildcard
    flowInstruction := inst }

/-- Embedding of `setHP2920TableMiss` (of13_controller.go:113-148): the
trace of flow-mod messages handed to the writer, the resulting device and
the error result; `w k` is the outcome of the k-th write. -/
def setHP2920TableMiss (w : Nat → Option String) (d : Device) :
    (List FlowMod × Device) × Option String :=
  match w 0 with
  | some e => (([setTableMissMsg 0 (.gotoTable 100)], d),
      some ("failed to set table_miss flow entry: " ++ e))
  | none =>
  match w 1 with
  | some e => (([setTableMissMsg 0 (.gotoTable 100),
      setTableMissMsg 100 (.gotoTable 200)], d),
      some ("failed to set table_miss flow entry: " ++ e))
  | none =>
  match w 2 with
  | some e => (([setTableMissMsg 0 (.gotoTable 100),
      setTableMissMsg 100 (.gotoTable 200),
      setTableMissMsg 200 (.applyAction ⟨OutPort.controller⟩)], d),
      some ("failed to set table_miss flow entry: " ++ e))
  | none => (([setTableMissMsg 0 (.gotoTable 100),
      setTableMissMsg 100 (.gotoTable 200),
      setTableMissMsg 200 (.applyAction ⟨OutPort.controller⟩)],
      { d with flowTableID := 200 }), none)

/-- Embedding of `setAS4600TableMiss` (of13_controller.go:150-157): the
AS4600-54T workaround writes nothing, touches nothing and succeeds. -/
def setAS4600TableMiss (_w : Nat → Option String) (d : Device) :
    (List FlowMod × Device) × Option String :=
  (([], d), none)

/-- Embedding of `setDefaultTableMiss` (of13_controller.go:159-181): one
table-miss entry in table 0 applying the send-to-controller action, then
the default flow table is set to 0. -/
def setDefaultTableMiss (w : Nat → Option String) (d : Device) :
    (List FlowMod × Device) × Option String :=
  match w 0 with
  | some e => (([setTableMissMsg 0 (.applyAction ⟨OutPort.controller⟩)], d),
      some ("failed to set table_miss flow entry: " ++ e))
  | none => (([setTableMissMsg 0 (.applyAction ⟨OutPort.controller⟩)],
      { d with flowTableID := 0 }), none)

/-- Embedding of `OF13Controller.OnDescReply` (of13_controller.go:183-199):
dispatch on hardware identity in the switch statement's case order. -/
def onDescReply (w : Nat → Option String) (d : Device) (v : DescReply) :
    (List FlowMod × Device) × Option String :=
  if isHP2920_24G v then setHP2920TableMiss w d
  else if isAS460054_T v then setAS4600TableMiss w d
  else setDefaultTableMiss w d

/-- The closed set of hardware profiles of spec §4.1. -/
inductive Profile where
  | profileA
  | profileB
  | profileDefault
  deriving DecidableEq

/-- The profile `OnDescReply` dispatches to, in its switch's case order. -/
def selectProfile (v : DescReply) : Profile :=
  if isHP2920_24G v then .profileA
  else if isAS460054_T v then .profileB
  else .profileDefault

/-! ## Port-description replies and port-status notifications -/

/-- `of13.OFPP_MAX`, the protocol's maximum valid physical port number
(OpenFlow 1.3 constant `0xffffff00`; the of13 package is not under src/). -/
def OFPP_MAX : Nat := 0xffffff00

/-- Insert-or-replace in the port map keyed by port number.  Modelled from
the spec: `Device.AddPort`/`Device.UpdatePort` (network package, not under
src/) create or update the Port entry for that number (spec §3: ports are
"created/updated from protocol port-description and port-status
messages"). -/
def upsertPort : List (Nat × Port) → Nat → Port → List (Nat × Port)
  | [], n, p => [(n, p)]
  | (k, q) :: rest, n, p =>
      if k = n then (n, p) :: rest else (k, q) :: upsertPort rest n p

/-- One iteration of the loop in `OnPortDescReply`
(of13_controller.go:203-215): ports numbered above `OFPP_MAX` are skipped;
otherwise the port is added and, when it is administratively up and
link-up, an LLDP frame is issued out of it (recorded by number; its send
result is only logged). -/
def portDescStep (acc : Device × List Nat) (p : Port) : Device × List Nat :=
  if OFPP_MAX < p.number then acc
  else
    let d := { acc.1 with ports := upsertPort acc.1.ports p.number p }
    if !p.portDown && !p.linkDown then (d, acc.2 ++ [p.number]) else (d, acc.2)

/-- Embedding of `OF13Controller.OnPortDescReply`
(of13_controller.go:201-218): fold the step over the reported ports; the
handler always returns success (`return nil`). -/
def onPortDescReply (d : Device) (ports : List Port) :
    (Device × List Nat) × Option String :=
  (ports.foldl portDescStep (d, []), none)

/-- Embedding of `OF13Controller.OnPortStatus` (of13_controller.go:220-228):
a port numbered above `OFPP_MAX` is ignored; otherwise the port entry is
updated; the handler always returns success. -/
def onPortStatus (d : Device) (p : Port) : Device × Option String :=
  if OFPP_MAX < p.number then (d, none)
  else ({ d with ports := upsertPort d.ports p.number p }, none)

/-! ## ProxyARP (northbound/app/proxyarp/arp.go)

Hardware addresses (`net.HardwareAddr`) are byte lists; protocol addresses
(`net.IP`) are abstract address values compared for equality, modelled as
`Nat`.  The directory (`database.FindMAC`) is a function from address to
`Except String (Option MAC)`: `.error e` is a lookup I/O error, `.ok none`
is not-found, `.ok (some mac)` is a found trusted MAC. -/

abbrev MAC := List Nat

abbrev IPAddr := Nat

/-- The fields of a decoded ARP payload (`protocol.ARP`) used by ProxyARP:
operation code, sender hardware/protocol address, target hardware/protocol
address. -/
structure ARP where
  operation : Nat
  sha : MAC
  spa : IPAddr
  tha : MAC
  tpa : IPAddr
  deriving DecidableEq

deriving instance DecidableEq for Except

/-- An inbound Ethernet frame as seen by `OnPacketIn`: source and
destination MAC, ethertype, and the payload represented by its ARP decode
result (`protocol.ARP.UnmarshalBinary` is not under src/; a payload that
fails to decode is `.error e`).  For non-ARP ethertypes the payload is
never decoded. -/
structure EthIn where
  srcMAC : MAC
  dstMAC : MAC
  etherType : Nat
  arp : Except String ARP
  deriving DecidableEq

/-- Embedding of `isARPAnnouncement` (arp.go:142-150): sender and target
protocol address coincide and the target hardware address is all-zero. -/
def isARPAnnouncement (request : ARP) : Bool :=
  decide (request.spa = request.tpa) &&
  decide (request.tha = ([0, 0, 0, 0, 0, 0] : MAC))

/-- Embedding of `ProxyARP.isValidARPAnnouncement` (arp.go:152-164): the
directory must know a MAC for the announced sender protocol address and it
must equal the announcement's sender hardware address; directory errors
propagate. -/
def isValidARPAnnouncement (db : IPAddr → Except String (Option MAC))
    (request : ARP) : Except String Bool :=
  match db request.spa with
  | .error e => .error e
  | .ok none => .ok false
  | .ok (some mac) => .ok (decide (mac = request.sha))

/-- An outbound Ethernet frame with an already-built ARP payload
(serialization by `MarshalBinary` is not under src/; we keep the structured
content). -/
structure EthOut where
  srcMAC : MAC
  dstMAC : MAC
  etherType : Nat
  payload : ARP
  deriving DecidableEq

/-- Modelled from the spec: `protocol.NewARPReply sha tha spa tpa` (protocol
package, not under src/) builds an ARP reply (operation code 2) with the
given sender and target address pairs (spec §4.3: "synthesize an ARP reply
carrying the directory's MAC as sender, addressed back to the original
requester's MAC/address pair"). -/
def NewARPReply (sha : MAC) (tha : MAC) (spa : IPAddr) (tpa : IPAddr) : ARP :=
  { operation := 2, sha := sha, spa := spa, tha := tha, tpa := tpa }

/-- Embedding of `makeARPReply` (arp.go:166-180): the ARP reply payload is
`NewARPReply mac request.SHA request.TPA request.SPA`, wrapped in an
Ethernet frame from `mac` to the requester's MAC with the ARP
ethertype. -/
def makeARPReply (request : ARP) (mac : MAC) : EthOut :=
  { srcMAC := mac
    dstMAC := request.sha
    etherType := 0x0806
    payload := NewARPReply mac request.sha request.tpa request.spa }

/-- The logical ingress tag of a packet-out message. -/
inductive InPort where
  | controller
  | port (n : Nat)
  deriving DecidableEq

/-- The fields of a packet-out message that `sendARPReply` populates. -/
structure PacketOut where
  inPort : InPort
  action : OFAction
  data : EthOut
  deriving DecidableEq

/-- Embedding of `sendARPReply` (arp.go:116-140): the packet-out carries
in-port "controller", an output action to the ingress port's number, and
the serialized reply frame. -/
def sendARPReplyMsg (ingress : Nat) (packet : EthOut) : PacketOut :=
  { inPort := InPort.controller
    action := { outPort := OutPort.physical ingress }
    data := packet }

/-- The observable outcome of one `ProxyARP.OnPacketIn` call: the packet-out
messages handed to the device's send path, whether the event was forwarded
to the next pipeline stage (`BaseProcessor.OnPacketIn`), and the error
result. -/
structure PIResult where
  out : List PacketOut
  forward : Bool
  error : Option String
  deriving DecidableEq

/-- Embedding of `ProxyARP.OnPacketIn` (arp.go:63-114).  `db` is the
directory; `sendRes` is the result of `Device.SendMessage` for the reply
packet-out (issued messages are recorded even when the transmit fails);
`ingress` is the ingress port number. -/
def onPacketIn (db : IPAddr → Except String (Option MAC))
    (sendRes : Option String) (ingress : Nat) (eth : EthIn) : PIResult :=
  if eth.etherType ≠ 0x0806 then { out := [], forward := true, error := none }
  else
    match eth.arp with
    | .error e => { out := [], forward := false, error := some e }
    | .ok arp =>
      if arp.operation ≠ 1 then { out := [], forward := false, error := none }
      else if isARPAnnouncement arp then
        match isValidARPAnnouncement db arp with
        | .error e => { out := [], forward := false, error := some e }
        | .ok false => { out := [], forward := false, error := none }
        | .ok true => { out := [], forward := true, error := none }
      else
        match db arp.tpa with
        | .error e => { out := [], forward := false, error := some e }
        | .ok none => { out := [], forward := false, error := none }
        | .ok (some mac) =>
          { out := [sendARPReplyMsg ingress (makeARPReply arp mac)]
            forward := false
            error := sendRes }

/-! ## Theorems: the handshake (C1, C6) -/

/-- C1: on receipt of HELLO the handshake issues exactly nine sends, in the
fixed order greeting-ack, config-set, features request, barrier,
remove-all-flows, barrier, description request, barrier, port-description
request; and the trace of issued sends is always an in-order prefix of that
sequence, so step N+1 is never issued before step N has completed (a failed
step truncates the trace there). -/
theorem onHello_nine_steps_in_order (w : Nat → Option String) :
    ((onHello w).2 = none → (onHello w).1 = handshakeSequence) ∧
    List.IsPrefix (onHello w).1 handshakeSequence := by
  unfold onHello handshakeSequence
  cases h0 : w 0 <;> simp only [h0]
  case some => exact ⟨by intro h; simp at h, ⟨_, rfl⟩⟩
  cases h1 : w 1 <;> simp only [h1]
  case some => exact ⟨by intro h; simp at h, ⟨_, rfl⟩⟩
  cases h2 : w 2 <;> simp only [h2]
  case some => exact ⟨by intro h; simp at h, ⟨_, rfl⟩⟩
  cases h3 : w 3 <;> simp only [h3]
  case some => exact ⟨by intro h; simp at h, ⟨_, rfl⟩⟩
  cases h4 : w 4 <;> simp only [h4]
  case some => exact ⟨by intro h; simp at h, ⟨_, rfl⟩⟩
  cases h5 : w 5 <;> simp only [h5]
  case some => exact ⟨by intro h; simp at h, ⟨_, rfl⟩⟩
  cases h6 : w 6 <;> simp only [h6]
  case some => exact ⟨by intro h; simp at h, ⟨_, rfl⟩⟩
  cases h7 : w 7 <;> simp only [h7]
  case some => exact ⟨by intro h; simp at h, ⟨_, rfl⟩⟩
  cases h8 : w 8 <;> simp only [h8]
  case some => exact ⟨by intro h; simp at h, ⟨_, rfl⟩⟩
  exact ⟨by simp, ⟨[], by simp⟩⟩

/-- Witness for C1 at the all-successful writer: the hypothesis of the first
conjunct is discharged concretely and the full nine-step trace appears. -/
theorem onHello_nine_steps_in_order_witness :
    (onHello (fun _ => none)).1 = handshakeSequence ∧
    List.IsPrefix (onHello (fun _ => none)).1 handshakeSequence :=
  ⟨(onHello_nine_steps_in_order (fun _ => none)).1 rfl,
   (onHello_nine_steps_in_order (fun _ => none)).2⟩

/-- C6: the handshake aborts at the first failing send — no later step is
issued — and wraps the error with a step-identifying text.  However the
code mislabels the ninth step: when the port-description-request send
fails, the wrapped error reads "failed to send DESCRIPTION_REQUEST", the
label of step 7, instead of naming the port-description request
(of13_controller.go:62-64, an apparent copy-paste slip).  This theorem
evaluates `onHello` at a writer failing exactly at the ninth send: no tenth
send is issued (the abort part of the claim holds) but the error text names
the wrong step. -/
theorem onHello_step9_error_mislabeled :
    onHello (fun k => if k = 8 then some "connection closed" else none) =
      (handshakeSequence,
       some "failed to send DESCRIPTION_REQUEST: connection closed") := by
  rfl

/-! ## Theorems: profile selection (C2) -/

/-- C2 counterexample: a descriptor whose hardware string both has prefix
"2920-24G" and contains "AS4600-54T", with manufacturer prefix "HP".  The
claim's rule "hardware string containing AS4600-54T selects Profile B"
fails here: the switch tests the Profile-A condition first and selects
Profile A, and `OnDescReply` runs the HP2920 handler, not the AS4600
no-op. -/
theorem selectProfile_overlap_counterexample :
    isAS460054_T ⟨"HP".toList, "2920-24G AS4600-54T".toList⟩ = true ∧
    selectProfile ⟨"HP".toList, "2920-24G AS4600-54T".toList⟩ ≠
      Profile.profileB ∧
    onDescReply (fun _ => none) ⟨0, []⟩
        ⟨"HP".toList, "2920-24G AS4600-54T".toList⟩ =
      setHP2920TableMiss (fun _ => none) ⟨0, []⟩ := by
  refine ⟨by decide, by decide, by decide⟩

/-- C2 (amended): profile selection is a pure deterministic function of the
manufacturer and hardware strings selecting exactly one of the three
profiles, with the switch's first-match priority: manufacturer prefix "HP"
and hardware prefix "2920-24G" selects Profile A; hardware containing
"AS4600-54T" selects Profile B when the Profile-A condition does not hold;
any other descriptor selects the default profile; and `OnDescReply`
dispatches to the selected profile's handler. -/
theorem selectProfile_first_match (v : DescReply) :
    (isHP2920_24G v = true → selectProfile v = Profile.profileA) ∧
    (isHP2920_24G v = false → isAS460054_T v = true →
      selectProfile v = Profile.profileB) ∧
    (isHP2920_24G v = false → isAS460054_T v = false →
      selectProfile v = Profile.profileDefault) ∧
    (∀ v2 : DescReply, v.manufacturer = v2.manufacturer →
      v.hardware = v2.hardware → selectProfile v = selectProfile v2) ∧
    (∀ w d, onDescReply w d v =
      match selectProfile v with
      | .profileA => setHP2920TableMiss w d
      | .profileB => setAS4600TableMiss w d
      | .profileDefault => setDefaultTableMiss w d) := by
  refine ⟨?_, ?_, ?_, ?_, ?_⟩
  · intro h; simp [selectProfile, h]
  · intro h1 h2; simp [selectProfile, h1, h2]
  · intro h1 h2; simp [selectProfile, h1, h2]
  · intro v2 hm hh
    have : v = v2 := by cases v; cases v2; simp_all
    rw [this]
  · intro w d
    unfold onDescReply selectProfile
    by_cases h1 : isHP2920_24G v <;> by_cases h2 : isAS460054_T v <;>
      simp [h1, h2]

/-- Witness for C2's amended theorem: each selection rule applied at a
concrete descriptor, discharging its hypotheses there. -/
theorem selectProfile_first_match_witness :
    selectProfile ⟨"HP".toList, "2920-24G-PoEP".toList⟩ = Profile.profileA ∧
    selectProfile ⟨"Edge-Core".toList, "AS4600-54T".toList⟩ =
      Profile.profileB ∧
    selectProfile ⟨"Acme".toList, "X440".toList⟩ = Profile.profileDefault :=
  ⟨(selectProfile_first_match _).1 (by decide),
   (selectProfile_first_match _).2.1 (by decide) (by decide),
   (selectProfile_first_match _).2.2.1 (by decide) (by decide)⟩

/-! ## Theorems: table-miss installation (C3, C4, C5) -/

/-- C3: with all writes succeeding, a Profile-A descriptor makes the
handler install exactly three table-miss entries — table 0 with an
unconditional go-to-table-100 instruction, table 100 with go-to-table-200,
table 200 with the send-to-controller apply-action — and then set the
device's default flow table to 200; a default-profile descriptor makes it
install exactly one table-miss entry in table 0 with the
send-to-controller apply-action and set the default flow table to 0. -/
theorem onDescReply_profileA_and_default_installs (w : Nat → Option String)
    (d : Device) (v : DescReply) (hw : ∀ k, w k = none) :
    (isHP2920_24G v = true →
      onDescReply w d v =
        (([setTableMissMsg 0 (.gotoTable 100),
           setTableMissMsg 100 (.gotoTable 200),
           setTableMissMsg 200 (.applyAction ⟨OutPort.controller⟩)],
          { d with flowTableID := 200 }), none)) ∧
    (isHP2920_24G v = false → isAS460054_T v = false →
      onDescReply w d v =
        (([setTableMissMsg 0 (.applyAction ⟨OutPort.controller⟩)],
          { d with flowTableID := 0 }), none)) := by
  constructor
  · intro h
    simp [onDescReply, h, setHP2920TableMiss, hw 0, hw 1, hw 2]
  · intro h1 h2
    simp [onDescReply, h1, h2, setDefaultTableMiss, hw 0]

/-- Witness for C3 at the all-successful writer and concrete HP 2920-24G
and default-profile descriptors. -/
theorem onDescReply_profileA_and_default_installs_witness :
    onDescReply (fun _ => none) ⟨7, []⟩ ⟨"HP".toList, "2920-24G".toList⟩ =
      (([setTableMissMsg 0 (.gotoTable 100),
         setTableMissMsg 100 (.gotoTable 200),
         setTableMissMsg 200 (.applyAction ⟨OutPort.controller⟩)],
        ⟨200, []⟩), none) ∧
    onDescReply (fun _ => none) ⟨7, []⟩ ⟨"Acme".toList, "X440".toList⟩ =
      (([setTableMissMsg 0 (.applyAction ⟨OutPort.controller⟩)],
        ⟨0, []⟩), none) :=
  ⟨(onDescReply_profileA_and_default_installs _ _ _ (fun _ => rfl)).1
     (by decide),
   (onDescReply_profileA_and_default_installs _ _ _ (fun _ => rfl)).2
     (by decide) (by decide)⟩

/-- C4: a Profile-B descriptor (hardware contains "AS4600-54T", Profile-A
condition failing) makes `OnDescReply` write no flow-mod message at all,
leave the device — its default flow-table id included — unchanged, and
return success, for every writer. -/
theorem onDescReply_as4600_noop (w : Nat → Option String) (d : Device)
    (v : DescReply) (h1 : isHP2920_24G v = false)
    (h2 : isAS460054_T v = true) :
    onDescReply w d v = (([], d), none) := by
  simp [onDescReply, h1, h2, setAS4600TableMiss]

/-- Witness for C4 at a concrete AS4600-54T descriptor. -/
theorem onDescReply_as4600_noop_witness :
    onDescReply (fun _ => some "io error") ⟨42, [(3, ⟨3, false, false⟩)]⟩
        ⟨"Edge-Core".toList, "AS4600-54T".toList⟩ =
      (([], ⟨42, [(3, ⟨3, false, false⟩)]⟩), none) :=
  onDescReply_as4600_noop _ _ _ (by decide) (by decide)

/-- Every message `setHP2920TableMiss` hands to the writer is one of its
three table-miss entries. -/
theorem mem_setHP2920TableMiss (w : Nat → Option String) (d : Device)
    (m : FlowMod) (hm : m ∈ (setHP2920TableMiss w d).1.1) :
    m = setTableMissMsg 0 (.gotoTable 100) ∨
    m = setTableMissMsg 100 (.gotoTable 200) ∨
    m = setTableMissMsg 200 (.applyAction ⟨OutPort.controller⟩) := by
  unfold setHP2920TableMiss at hm
  cases h0 : w 0 <;> simp only [h0] at hm
  case some => simp at hm; tauto
  cases h1 : w 1 <;> simp only [h1] at hm
  case some => simp at hm; tauto
  cases h2 : w 2 <;> simp only [h2] at hm <;> simp at hm <;> tauto

/-- The only message `setDefaultTableMiss` hands to the writer is its
single table-miss entry. -/
theorem mem_setDefaultTableMiss (w : Nat → Option String) (d : Device)
    (m : FlowMod) (hm : m ∈ (setDefaultTableMiss w d).1.1) :
    m = setTableMissMsg 0 (.applyAction ⟨OutPort.controller⟩) := by
  unfold setDefaultTableMiss at hm
  cases h0 : w 0 <;> simp only [h0] at hm <;> simpa using hm

/-- The fields common to every table-miss entry `setTableMiss` builds. -/
theorem setTableMissMsg_fields (tid : Nat) (inst : Instruction) :
    (setTableMissMsg tid inst).cookie.testBit 63 = true ∧
    (setTableMissMsg tid inst).idleTimeout = 0 ∧
    (setTableMissMsg tid inst).hardTimeout = 0 ∧
    (setTableMissMsg tid inst).priority = 0 ∧
    (setTableMissMsg tid inst).flowMatch = OFMatch.wildcard :=
  ⟨show Nat.testBit (1 <<< 63) 63 = true by decide, rfl, rfl, rfl, rfl⟩

/-- C5: every table-miss flow entry any profile installs — whatever the
descriptor, device and write results — carries the reserved high-order
cookie bit (bit 63 of the 64-bit cookie), zero idle timeout, zero hard
timeout, priority 0, and the wildcard match. -/
theorem tableMiss_entry_contract (w : Nat → Option String) (d : Device)
    (v : DescReply) (m : FlowMod) (hm : m ∈ (onDescReply w d v).1.1) :
    m.cookie.testBit 63 = true ∧ m.idleTimeout = 0 ∧ m.hardTimeout = 0 ∧
    m.priority = 0 ∧ m.flowMatch = OFMatch.wildcard := by
  unfold onDescReply at hm
  split at hm
  · rcases mem_setHP2920TableMiss _ _ _ hm with h | h | h <;> rw [h] <;>
      exact setTableMissMsg_fields _ _
  · split at hm
    · simp [setAS4600TableMiss] at hm
    · rw [mem_setDefaultTableMiss _ _ _ hm]
      exact setTableMissMsg_fields _ _

/-- Witness for C5: the membership hypothesis discharged at the default
profile's single entry, produced by a concrete `OnDescReply` run. -/
theorem tableMiss_entry_contract_witness :
    (setTableMissMsg 0 (.applyAction ⟨OutPort.controller⟩)) ∈
      (onDescReply (fun _ => none) ⟨0, []⟩
        ⟨"Acme".toList, "X440".toList⟩).1.1 ∧
    ((setTableMissMsg 0
        (.applyAction ⟨OutPort.controller⟩)).cookie.testBit 63 = true ∧
     (setTableMissMsg 0 (.applyAction ⟨OutPort.controller⟩)).idleTimeout = 0 ∧
     (setTableMissMsg 0 (.applyAction ⟨OutPort.controller⟩)).hardTimeout = 0 ∧
     (setTableMissMsg 0 (.applyAction ⟨OutPort.controller⟩)).priority = 0 ∧
     (setTableMissMsg 0 (.applyAction ⟨OutPort.controller⟩)).flowMatch =
       OFMatch.wildcard) :=
  ⟨by decide, tableMiss_entry_contract (fun _ => none) ⟨0, []⟩
    ⟨"Acme".toList, "X440".toList⟩ _ (by decide)⟩

/-! ## Theorems: out-of-range ports (C9) -/

/-- Inserting a port at number `n` leaves the entry at any other number
unchanged. -/
theorem lookup_upsertPort (l : List (Nat × Port)) (n k : Nat) (p : Port)
    (h : k ≠ n) : (upsertPort l n p).lookup k = l.lookup k := by
  have hbeq : (k == n) = false := beq_eq_false_iff_ne.mpr h
  induction l with
  | nil => simp [upsertPort, List.lookup, hbeq]
  | cons hd tl ih =>
    obtain ⟨a, q⟩ := hd
    by_cases han : a = n
    · subst han
      simp [upsertPort, List.lookup, hbeq]
    · have hstep : upsertPort ((a, q) :: tl) n p =
          (a, q) :: upsertPort tl n p := by simp [upsertPort, han]
      rw [hstep]
      cases hka : k == a <;> simp [List.lookup, hka, ih]

/-- Folding `portDescStep` over any reported port list never touches the
port-map entry at a number above `OFPP_MAX`. -/
theorem lookup_portDescFold (ports : List Port) (acc : Device × List Nat)
    (k : Nat) (hk : OFPP_MAX < k) :
    (ports.foldl portDescStep acc).1.ports.lookup k =
      acc.1.ports.lookup k := by
  induction ports generalizing acc with
  | nil => rfl
  | cons p ps ih =>
    rw [List.foldl_cons, ih]
    unfold portDescStep
    by_cases h : OFPP_MAX < p.number
    · simp [h]
    · have hne : k ≠ p.number := by omega
      by_cases hup : !p.portDown && !p.linkDown <;>
        simp [h, hup, lookup_upsertPort _ _ _ _ hne]

/-- C9: a reported port whose number exceeds `OFPP_MAX` is neither added
nor updated, and the handler returns success: in a port-description reply,
whatever the reported port list, the port map is unchanged at every number
above `OFPP_MAX` and the handler succeeds; a port-status notification for
a port numbered above `OFPP_MAX` leaves the whole device unchanged and
succeeds. -/
theorem highPorts_never_tracked (d : Device) (ports : List Port) (p : Port)
    (k : Nat) (hk : OFPP_MAX < k) (hp : OFPP_MAX < p.number) :
    ((onPortDescReply d ports).1.1.ports.lookup k = d.ports.lookup k ∧
     (onPortDescReply d ports).2 = none) ∧
    onPortStatus d p = (d, none) := by
  refine ⟨⟨?_, rfl⟩, ?_⟩
  · exact lookup_portDescFold ports (d, []) k hk
  · simp [onPortStatus, hp]

/-- Witness for C9: a reply reporting one out-of-range port (0xffffff01)
and one valid port, and a port-status for an out-of-range port, against a
device with one existing port. -/
theorem highPorts_never_tracked_witness :
    OFPP_MAX < 0xffffff01 ∧
    ((onPortDescReply ⟨0, [(3, ⟨3, false, false⟩)]⟩
        [⟨0xffffff01, false, false⟩, ⟨1, false, false⟩]).1.1.ports.lookup
          0xffffff01 =
        ([(3, (⟨3, false, false⟩ : Port))] : List (Nat × Port)).lookup
          0xffffff01 ∧
      (onPortDescReply ⟨0, [(3, ⟨3, false, false⟩)]⟩
        [⟨0xffffff01, false, false⟩, ⟨1, false, false⟩]).2 = none) ∧
    onPortStatus ⟨0, [(3, ⟨3, false, false⟩)]⟩ ⟨0xffffff05, true, false⟩ =
      (⟨0, [(3, ⟨3, false, false⟩)]⟩, none) :=
  ⟨by decide,
   (highPorts_never_tracked ⟨0, [(3, ⟨3, false, false⟩)]⟩
      [⟨0xffffff01, false, false⟩, ⟨1, false, false⟩] ⟨0xffffff05, true, false⟩
      0xffffff01 (by decide) (by decide)).1,
   (highPorts_never_tracked ⟨0, [(3, ⟨3, false, false⟩)]⟩
      [⟨0xffffff01, false, false⟩, ⟨1, false, false⟩] ⟨0xffffff05, true, false⟩
      0xffffff01 (by decide) (by decide)).2⟩

/-! ## Theorems: ProxyARP (C7, C8, C10) -/

/-- C7: for a packet-in carrying an ordinary ARP request (operation 1, not
an announcement): if the directory has no entry for the target protocol
address, ProxyARP emits no outbound message, does not forward the event and
returns success; if the directory maps the target address to a MAC, it
emits exactly one packet-out whose in-port is "controller", whose output
action targets the ingress port, and whose data is the synthesized ARP
reply frame: Ethernet source = directory MAC, Ethernet destination =
requester's MAC, ARP ethertype, and an operation-2 payload with sender
hardware address the directory's MAC and target hardware address the
requester's MAC, addressed back to the requester's protocol address. -/
theorem proxyarp_request_handling (db : IPAddr → Except String (Option MAC))
    (sendRes : Option String) (ingress : Nat) (eth : EthIn) (arp : ARP)
    (hparse : eth.arp = Except.ok arp) (htype : eth.etherType = 0x0806)
    (hop : arp.operation = 1) (hann : isARPAnnouncement arp = false) :
    (db arp.tpa = Except.ok none →
      onPacketIn db sendRes ingress eth =
        { out := [], forward := false, error := none }) ∧
    (∀ mac : MAC, db arp.tpa = Except.ok (some mac) →
      onPacketIn db sendRes ingress eth =
        { out := [{ inPort := InPort.controller
                    action := { outPort := OutPort.physical ingress }
                    data := { srcMAC := mac
                              dstMAC := arp.sha
                              etherType := 0x0806
                              payload := { operation := 2
                                           sha := mac
                                           spa := arp.tpa
                                           tha := arp.sha
                                           tpa := arp.spa } } }]
          forward := false
          error := sendRes }) := by
  constructor
  · intro hdb
    simp [onPacketIn, htype, hparse, hop, hann, hdb]
  · intro mac hdb
    simp [onPacketIn, htype, hparse, hop, hann, hdb, sendARPReplyMsg,
      makeARPReply, NewARPReply]

/-- Witness for C7 at a concrete directory and request: IP 5 maps to MAC
aa:bb:cc:dd:ee:ff; a request from MAC 1:2:3:4:5:6 / IP 9 for IP 5 on
ingress port 4 yields exactly the synthesized reply; a request for the
absent IP 8 yields nothing. -/
theorem proxyarp_request_handling_witness :
    (onPacketIn
        (fun ip => if ip = 5
          then Except.ok (some [0xaa, 0xbb, 0xcc, 0xdd, 0xee, 0xff])
          else Except.ok none)
        none 4
        ⟨[1, 2, 3, 4, 5, 6], [0xff, 0xff, 0xff, 0xff, 0xff, 0xff], 0x0806,
         Except.ok ⟨1, [1, 2, 3, 4, 5, 6], 9, [0, 0, 0, 0, 0, 0], 8⟩⟩ =
      { out := [], forward := false, error := none }) ∧
    (onPacketIn
        (fun ip => if ip = 5
          then Except.ok (some [0xaa, 0xbb, 0xcc, 0xdd, 0xee, 0xff])
          else Except.ok none)
        none 4
        ⟨[1, 2, 3, 4, 5, 6], [0xff, 0xff, 0xff, 0xff, 0xff, 0xff], 0x0806,
         Except.ok ⟨1, [1, 2, 3, 4, 5, 6], 9, [0, 0, 0, 0, 0, 0], 5⟩⟩ =
      { out := [{ inPort := InPort.controller
                  action := { outPort := OutPort.physical 4 }
                  data := { srcMAC := [0xaa, 0xbb, 0xcc, 0xdd, 0xee, 0xff]
                            dstMAC := [1, 2, 3, 4, 5, 6]
                            etherType := 0x0806
                            payload := { operation := 2
                                         sha := [0xaa, 0xbb, 0xcc, 0xdd,
                                           0xee, 0xff]
                                         spa := 5
                                         tha := [1, 2, 3, 4, 5, 6]
                                         tpa := 9 } } }]
        forward := false
        error := none }) :=
  ⟨(proxyarp_request_handling _ none 4 _ _ rfl rfl rfl (by decide)).1
     (by decide),
   (proxyarp_request_handling _ none 4 _ _ rfl rfl rfl (by decide)).2
     [0xaa, 0xbb, 0xcc, 0xdd, 0xee, 0xff] (by decide)⟩

/-- C8: for a packet-in carrying an ARP announcement (operation 1, sender
protocol address equal to target protocol address, all-zero target hardware
address) whose directory lookup does not fail: the event is forwarded
unchanged to the next stage exactly when the directory knows a MAC for the
announced address and it equals the announcement's sender hardware address;
otherwise it is dropped — not forwarded — with no outbound message and no
error. -/
theorem proxyarp_announcement_validation
    (db : IPAddr → Except String (Option MAC)) (sendRes : Option String)
    (ingress : Nat) (eth : EthIn) (arp : ARP) (r : Option MAC)
    (hparse : eth.arp = Except.ok arp) (htype : eth.etherType = 0x0806)
    (hop : arp.operation = 1) (hann : isARPAnnouncement arp = true)
    (hdb : db arp.spa = Except.ok r) :
    onPacketIn db sendRes ingress eth =
      { out := [], forward := decide (r = some arp.sha), error := none } := by
  cases r with
  | none => simp [onPacketIn, htype, hparse, hop, hann,
      isValidARPAnnouncement, hdb]
  | some mac =>
    by_cases h : mac = arp.sha <;>
      simp [onPacketIn, htype, hparse, hop, hann, isValidARPAnnouncement,
        hdb, h]

/-- Witness for C8 at a concrete directory (IP 5 → MAC
aa:bb:cc:dd:ee:ff) and two concrete announcements for IP 5: one claiming
the matching MAC (forwarded) and one claiming a different MAC (dropped). -/
theorem proxyarp_announcement_validation_witness :
    (onPacketIn
        (fun ip => if ip = 5
          then Except.ok (some [0xaa, 0xbb, 0xcc, 0xdd, 0xee, 0xff])
          else Except.ok none)
        none 4
        ⟨[0xaa, 0xbb, 0xcc, 0xdd, 0xee, 0xff],
         [0xff, 0xff, 0xff, 0xff, 0xff, 0xff], 0x0806,
         Except.ok ⟨1, [0xaa, 0xbb, 0xcc, 0xdd, 0xee, 0xff], 5,
           [0, 0, 0, 0, 0, 0], 5⟩⟩ =
      { out := [], forward := true, error := none }) ∧
    (onPacketIn
        (fun ip => if ip = 5
          then Except.ok (some [0xaa, 0xbb, 0xcc, 0xdd, 0xee, 0xff])
          else Except.ok none)
        none 4
        ⟨[9, 9, 9, 9, 9, 9], [0xff, 0xff, 0xff, 0xff, 0xff, 0xff], 0x0806,
         Except.ok ⟨1, [9, 9, 9, 9, 9, 9], 5, [0, 0, 0, 0, 0, 0], 5⟩⟩ =
      { out := [], forward := false, error := none }) :=
  ⟨proxyarp_announcement_validation _ none 4 _
     ⟨1, [0xaa, 0xbb, 0xcc, 0xdd, 0xee, 0xff], 5, [0, 0, 0, 0, 0, 0], 5⟩
     (some [0xaa, 0xbb, 0xcc, 0xdd, 0xee, 0xff]) rfl rfl rfl (by decide)
     (by decide),
   proxyarp_announcement_validation _ none 4 _
     ⟨1, [9, 9, 9, 9, 9, 9], 5, [0, 0, 0, 0, 0, 0], 5⟩
     (some [0xaa, 0xbb, 0xcc, 0xdd, 0xee, 0xff]) rfl rfl rfl (by decide)
     (by decide)⟩

/-- C10: a packet-in whose decoded payload is classified as an ARP
announcement never produces a packet-out — the announcement branch returns
(forwarding, dropping or erroring) before the target-address lookup that
drives reply synthesis — whatever the directory, ethertype, operation code
and send oracle. -/
theorem proxyarp_announcement_never_replies
    (db : IPAddr → Except String (Option MAC)) (sendRes : Option String)
    (ingress : Nat) (eth : EthIn) (arp : ARP)
    (hparse : eth.arp = Except.ok arp)
    (hann : isARPAnnouncement arp = true) :
    (onPacketIn db sendRes ingress eth).out = [] := by
  unfold onPacketIn
  by_cases htype : eth.etherType ≠ 0x0806
  · simp [htype]
  · by_cases hop : arp.operation ≠ 1
    · simp [htype, hparse, hop]
    · cases hv : isValidARPAnnouncement db arp with
      | error e => simp [htype, hparse, hop, hann, hv]
      | ok b => cases b <;> simp [htype, hparse, hop, hann, hv]

/-- Witness for C10 at a concrete announcement whose announced address is
present in the directory with a matching MAC — even then, no reply is
synthesized. -/
theorem proxyarp_announcement_never_replies_witness :
    (onPacketIn
        (fun ip => if ip = 5
          then Except.ok (some [0xaa, 0xbb, 0xcc, 0xdd, 0xee, 0xff])
          else Except.ok none)
        none 7
        ⟨[0xaa, 0xbb, 0xcc, 0xdd, 0xee, 0xff],
         [0xff, 0xff, 0xff, 0xff, 0xff, 0xff], 0x0806,
         Except.ok ⟨1, [0xaa, 0xbb, 0xcc, 0xdd, 0xee, 0xff], 5,
           [0, 0, 0, 0, 0, 0], 5⟩⟩).out = [] :=
  proxyarp_announcement_never_replies _ none 7 _
    ⟨1, [0xaa, 0xbb, 0xcc, 0xdd, 0xee, 0xff], 5, [0, 0, 0, 0, 0, 0], 5⟩
    rfl (by decide)

end Cherry
